import Mathlib

/-!
Shallow embedding of `src/notebook/static/services/sessions/remote.js`:
a session-oriented WebSocket client (`Remote`) with exponential-backoff
reconnection, a one-shot close guard per transport, an ordered asynchronous
inbound-message pipeline, and envelope construction for outbound sends.

External collaborators (the browser WebSocket object, the pub/sub event bus,
the `serialize` codec, `utils.uuid`) are modelled at their boundary:
transport events and timer firings are stimuli; notifications, timer
arming and socket sends are recorded as actions; the codec's behaviour on a
frame (latency, decode result) is quantified over.
-/

namespace Remote

/-- The `WebSocket.readyState` values of the browser WebSocket API
(CONNECTING = 0, OPEN = 1, CLOSING = 2, CLOSED = 3). -/
inductive ReadyState
  | CONNECTING
  | OPEN
  | CLOSING
  | CLOSED
deriving DecidableEq, Repr

/-- Which function is currently assigned to `this.ws.onclose`:
`ws_closed_early` (start_channel, line 217), `ws_closed_late` (the 1 s
switch timer, line 222), or the `close` cleanup set by `stop_channel`
(line 293). -/
inductive OncloseHandler
  | early
  | late
  | cleanup
deriving DecidableEq, Repr

/-- The transport handle held in `this.ws`: its ready state and its
currently assigned onclose handler. -/
structure WS where
  readyState : ReadyState
  onclose : OncloseHandler
deriving DecidableEq, Repr

/-- A decoded inbound message as seen by `_handle_ws_message` (line 353):
only the presence of an `exec` field matters to the dispatch step. -/
structure Msg where
  exec : Option String
deriving DecidableEq, Repr

/-- A raw inbound frame together with the behaviour of the external codec
on it: how long `serialize.deserialize(e.data)` takes, whether it resolves
(`decoded = some msg`) or rejects (`none`), and whether the dispatch step
(`events.trigger`, line 356) itself throws. -/
structure Frame where
  arrival : Nat
  decodeLatency : Nat
  decoded : Option Msg
  dispatchThrows : Bool
deriving DecidableEq, Repr

/-- An opaque JSON object (metadata, parent_header): an association list;
`{}` is `[]`. -/
abbrev JsonObj : Type := List (String × String)

/-- The `header` of an outbound envelope (lines 49-55). `msg_id` values are
drawn from the external fresh-id source `utils.uuid`, modelled as a
counter. -/
structure Header where
  msg_id : Nat
  username : String
  session : String
  msg_type : String
  version : String
deriving DecidableEq, Repr

/-- An outbound message envelope (lines 48-60) with the `channel` tag that
`send_input_reply` adds after construction (line 344). `content` is opaque
to the builder. -/
structure Envelope (α : Type) where
  header : Header
  metadata : JsonObj
  content : α
  buffers : List Nat
  parent_header : JsonObj
  channel : Option String
deriving DecidableEq, Repr

/-- Observable actions of the manager: events triggered on the bus, timers
armed via `setTimeout`, and envelopes handed to `this.ws.send` (the wire
serialization by the external codec is a bijection on envelopes, so the
envelope itself is recorded). -/
inductive Act
  | remote_connected
  | remote_disconnected
  | remote_connection_failed (master_url : String) (attempt : Nat)
  | remote_connection_dead (reconnect_attempt : Nat)
  | remote_reconnecting
  | input_reply (value : String)
  | scheduleReconnect (delaySeconds : Nat)
  | scheduleHandlerSwitch
  | wsSend (msg : Envelope String)
deriving DecidableEq, Repr

/-- The mutable state of a `Remote` instance (constructor, lines 9-42).
`already_called_onclose` is a closure variable created afresh by each
`start_channel` call (line 177); it is hoisted into the state here and
reset whenever a new transport is created. `uuid_counter` models the
external fresh-id source `utils.uuid`. `msg_queue` is the sequence of
inbound frames enqueued on the promise chain, in arrival order. -/
structure State where
  master_url : String
  session_id : String
  username : String
  ws : Option WS
  reconnect_attempt : Nat
  reconnect_limit : Nat
  already_called_onclose : Bool
  uuid_counter : Nat
  msg_queue : List Frame
deriving DecidableEq, Repr

/-- The constructor `Remote(master_url, session_id)` (lines 9-42):
`ws = null`, `username = "username"`, `_reconnect_attempt = 0`,
`reconnect_limit = 7`. -/
def init (master_url session_id : String) : State :=
  { master_url := master_url
    session_id := session_id
    username := "username"
    ws := none
    reconnect_attempt := 0
    reconnect_limit := 7
    already_called_onclose := false
    uuid_counter := 0
    msg_queue := [] }

/-- The fixed reconnect ceiling, `this.reconnect_limit = 7` (line 41). -/
def reconnect_limit : Nat := 7

/-- The backoff delay in seconds computed by `_schedule_reconnect`:
`var timeout = Math.pow(2, this._reconnect_attempt)` (line 266). -/
def nextDelay (attempt : Nat) : Nat := 2 ^ attempt

/-- The retry condition of `_schedule_reconnect`:
`this._reconnect_attempt < this.reconnect_limit` (line 265). -/
def shouldRetry (attempt : Nat) : Bool := attempt < reconnect_limit

/-- Query `is_connected` (lines 301-318): true iff a websocket exists and its
`readyState` is `WebSocket.OPEN`. -/
def is_connected (s : State) : Bool :=
  match s.ws with
  | none => false
  | some w => w.readyState = ReadyState.OPEN

/-- Query `is_fully_disconnected` (lines 320-330): `this.ws === null`. -/
def is_fully_disconnected (s : State) : Bool :=
  s.ws = none

/-- The `close` cleanup closure inside `stop_channel` (lines 286-290):
`if (that.ws && that.ws.readyState === WebSocket.CLOSED) that.ws = null`. -/
def close_cleanup (s : State) : State :=
  match s.ws with
  | none => s
  | some w =>
      if w.readyState = ReadyState.CLOSED then { s with ws := none } else s

/-- Operation `stop_channel` (lines 278-299): if a websocket exists and is OPEN, set
its onclose to the cleanup closure and call `ws.close()` (which moves the
socket to CLOSING per the WebSocket API); otherwise run the cleanup
directly, which nulls the handle only when the socket is already CLOSED. -/
def stop_channel (s : State) : State :=
  match s.ws with
  | none => s
  | some w =>
      if w.readyState = ReadyState.OPEN then
        { s with ws := some { readyState := ReadyState.CLOSING
                              onclose := OncloseHandler.cleanup } }
      else
        close_cleanup s

/-- Operation `_schedule_reconnect` (lines 260-276): below the ceiling, arm a timer
for `2^attempt` seconds (`setTimeout(reconnect, 1e3 * timeout)`, line 268);
at the ceiling, trigger `remote_connection_dead` carrying the attempt
count. The state is not mutated. -/
def schedule_reconnect (s : State) : State × List Act :=
  if s.reconnect_attempt < s.reconnect_limit then
    (s, [Act.scheduleReconnect (2 ^ s.reconnect_attempt)])
  else
    (s, [Act.remote_connection_dead s.reconnect_attempt])

/-- Handler `_ws_closed(master_url, error)` (lines 241-258): stop the channel,
trigger `remote_disconnected`, trigger `remote_connection_failed` (with the
url and current attempt count) when `error` is set, then schedule a
reconnect. -/
def ws_closed (s : State) (error : Bool) : State × List Act :=
  let s1 := stop_channel s
  let failActs :=
    if error then [Act.remote_connection_failed s1.master_url s1.reconnect_attempt]
    else []
  let sched := schedule_reconnect s1
  (sched.1, Act.remote_disconnected :: failActs ++ sched.2)

/-- Operation `start_channel` (lines 162-226): stop any existing channel, open a new
websocket (CONNECTING), install `ws_closed_early` as onclose with a fresh
one-shot guard, and arm the 1 s timer that switches onclose to
`ws_closed_late`. -/
def start_channel (s : State) : State × List Act :=
  let s1 := stop_channel s
  ({ s1 with
      ws := some { readyState := ReadyState.CONNECTING
                   onclose := OncloseHandler.early }
      already_called_onclose := false },
   [Act.scheduleHandlerSwitch])

/-- Handler `_ws_opened` (lines 228-239), run when the websocket fires its `open`
event (which sets `readyState` to OPEN): if `is_connected()` then
`_remote_connected()` triggers `remote_connected` (line 146), whose
`bind_events` subscriber resets `_reconnect_attempt` to 0 (lines 96-98). -/
def handle_open (s : State) : State × List Act :=
  match s.ws with
  | none => (s, [])
  | some w =>
      let s1 := { s with ws := some { w with readyState := ReadyState.OPEN } }
      if is_connected s1 then
        ({ s1 with reconnect_attempt := 0 }, [Act.remote_connected])
      else
        (s1, [])

/-- The shared body of `ws_closed_early` (lines 178-198) and
`ws_closed_late` (lines 199-207): return if the one-shot guard is set,
otherwise set it, and call `_ws_closed(url, false)` when the close was not
clean. The two handlers' bodies are textually identical in the source. -/
def onclose_guarded (s : State) (wasClean : Bool) : State × List Act :=
  if s.already_called_onclose then
    (s, [])
  else
    let s1 := { s with already_called_onclose := true }
    if wasClean then (s1, []) else ws_closed s1 false

/-- A websocket `close` event: the socket moves to CLOSED, then whichever
handler is currently assigned to `onclose` runs (early, late, or the
`stop_channel` cleanup). -/
def handle_close (s : State) (wasClean : Bool) : State × List Act :=
  match s.ws with
  | none => (s, [])
  | some w =>
      let s1 := { s with ws := some { w with readyState := ReadyState.CLOSED } }
      match w.onclose with
      | OncloseHandler.early => onclose_guarded s1 wasClean
      | OncloseHandler.late => onclose_guarded s1 wasClean
      | OncloseHandler.cleanup => (close_cleanup s1, [])

/-- Handler `ws_error` (lines 208-214): return if the one-shot guard is set,
otherwise set it and call `_ws_closed(url, true)`. -/
def handle_error (s : State) : State × List Act :=
  match s.ws with
  | none => (s, [])
  | some _ =>
      if s.already_called_onclose then
        (s, [])
      else
        ws_closed { s with already_called_onclose := true } true

/-- The 1 s switch timer armed by `start_channel` (lines 220-224):
`if (that.ws !== null) that.ws.onclose = ws_closed_late`. -/
def handle_switch_timer (s : State) : State × List Act :=
  match s.ws with
  | none => (s, [])
  | some w => ({ s with ws := some { w with onclose := OncloseHandler.late } }, [])

/-- Modelled from the spec: `Remote.prototype.reconnect` is installed as the
backoff-timer callback (`setTimeout($.proxy(this.reconnect, this), ...)`,
line 268) but is not defined under `src/`. The spec says the timer fires,
"after which `startChannel` is invoked again and the attempt counter
increments", and that a `reconnecting` lifecycle notification exists. -/
def reconnect (s : State) : State × List Act :=
  let s1 := { s with reconnect_attempt := s.reconnect_attempt + 1 }
  let p := start_channel s1
  (p.1, Act.remote_reconnecting :: p.2)

/-- Handler `_handle_ws_message` (lines 349-361) as it affects the manager state:
the raw frame is appended to the promise chain (`this._msg_queue = ...`);
nothing else on the instance — in particular not `this.ws` — is touched,
and no lifecycle action is taken synchronously. The chain's processing
semantics is `runChain` below. -/
def handle_ws_message (s : State) (f : Frame) : State × List Act :=
  ({ s with msg_queue := s.msg_queue ++ [f] }, [])

/-- External stimuli driving a `Remote` instance: transport events, the two
kinds of timer firing, and an inbound frame. -/
inductive Stim
  | wsOpen
  | wsClose (wasClean : Bool)
  | wsError
  | reconnectTimer
  | switchTimer
  | message (f : Frame)
deriving DecidableEq, Repr

/-- Dispatch one stimulus to the corresponding handler. -/
def stepStim (s : State) : Stim → State × List Act
  | Stim.wsOpen => handle_open s
  | Stim.wsClose c => handle_close s c
  | Stim.wsError => handle_error s
  | Stim.reconnectTimer => reconnect s
  | Stim.switchTimer => handle_switch_timer s
  | Stim.message f => handle_ws_message s f

/-- Run a list of stimuli, accumulating the emitted actions. -/
def runStims (s : State) : List Stim → State × List Act
  | [] => (s, [])
  | st :: rest =>
      let (s1, a1) := stepStim s st
      let (s2, a2) := runStims s1 rest
      (s2, a1 ++ a2)

/-! ### Envelope construction (`_get_msg`, lines 47-62) -/

/-- Modelled collaborator `utils.uuid()`: a fresh-identifier source. Its
contract ("newly generated unique id", spec §4.1) is modelled as a counter
returning the current value and the advanced generator state. -/
def uuid (counter : Nat) : Nat × Nat := (counter, counter + 1)

/-- Builder `_get_msg(msg_type, content, metadata, buffers)` (lines 47-62): build
an envelope with a fresh `msg_id`, the instance's `username` and
`session_id`, the given `msg_type`, version `"5.0"`, `metadata || {}`,
`buffers || []`, and an empty `parent_header`. Pure apart from consuming
one fresh id, which is returned as the advanced counter. -/
def get_msg {α : Type} (username session_id : String) (counter : Nat) (msg_type : String)
    (content : α) (metadata : Option JsonObj) (buffers : Option (List Nat)) :
    Envelope α × Nat :=
  let (id, c1) := uuid counter
  ({ header := { msg_id := id
                 username := username
                 session := session_id
                 msg_type := msg_type
                 version := "5.0" }
     metadata := metadata.getD []
     content := content
     buffers := buffers.getD []
     parent_header := []
     channel := none }, c1)

/-- Operation `send_input_reply(input)` (lines 335-347): throw "remote is not
connected" unless `is_connected()`; otherwise trigger `input_reply` with
the content, build an `"input_reply"` envelope, tag its channel `"stdin"`,
send it serialized over the websocket, and return its `msg_id`. The
content `{value: input}` is carried as the input value. -/
def send_input_reply (s : State) (input : String) :
    Except String (State × List Act × Nat) :=
  if is_connected s then
    let p := get_msg s.username s.session_id s.uuid_counter "input_reply" input none none
    let msg := { p.1 with channel := some "stdin" }
    Except.ok ({ s with uuid_counter := p.2 },
      [Act.input_reply input, Act.wsSend msg],
      msg.header.msg_id)
  else
    Except.error "remote is not connected"

/-! ### The inbound promise chain (`_handle_ws_message`, lines 349-361)

`this._msg_queue = this._msg_queue.then(deserialize).then(dispatch).catch(reject)`:
each frame appends a decode-then-dispatch-then-catch segment to a single
promise chain, so segment `k+1` starts only when segment `k` has settled.
A rejection in decode or dispatch is caught by `utils.reject(..., true)`
(line 360), which logs the error and leaves the chain resolved. -/

/-- What a frame's chain segment did: dispatched the decoded message
(recording its `exec` field, which when present triggers the `exec` bus
event, line 356), or had its decode/dispatch error caught and reported. -/
inductive ChainAct
  | dispatched (exec : Option String)
  | errorReported
deriving DecidableEq, Repr

/-- The record of one frame's chain segment: its position in arrival
order, the time its decode began, the time the segment settled, and what
it did. -/
structure ChainStep where
  idx : Nat
  startT : Nat
  finishT : Nat
  act : ChainAct
deriving DecidableEq, Repr

/-- The outcome of one frame's segment, determined by the frame alone:
a decode rejection or a dispatch throw is caught and reported; otherwise
the message is dispatched. -/
def frameAct (f : Frame) : ChainAct :=
  match f.decoded with
  | none => ChainAct.errorReported
  | some m => if f.dispatchThrows then ChainAct.errorReported else ChainAct.dispatched m.exec

/-- Execute the promise chain over the queued frames. `t` is the time the
previous segment settled; a segment starts once the previous one has
settled and its frame has arrived, runs for the frame's decode latency,
then dispatches (or reports) synchronously. -/
def runChain (t i : Nat) : List Frame → List ChainStep
  | [] => []
  | f :: fs =>
      let s := max t f.arrival
      let fin := s + f.decodeLatency
      { idx := i, startT := s, finishT := fin, act := frameAct f } :: runChain fin (i + 1) fs

/-! ### Derived predicates and concrete scenarios -/

/-- Whether a chain segment dispatched its message. -/
def isDispatched : ChainAct → Bool
  | ChainAct.dispatched _ => true
  | ChainAct.errorReported => false

/-- An action is the `remote_disconnected` notification. -/
def isDisconnectedAct : Act → Bool
  | Act.remote_disconnected => true
  | _ => false

/-- An action arms the backoff reconnect timer. -/
def isScheduleAct : Act → Bool
  | Act.scheduleReconnect _ => true
  | _ => false

/-- An action is the terminal `remote_connection_dead` notification. -/
def isDeadAct : Act → Bool
  | Act.remote_connection_dead _ => true
  | _ => false

/-- A stimulus is a websocket close or error event. -/
def isCloseStim : Stim → Bool
  | Stim.wsClose _ => true
  | Stim.wsError => true
  | _ => false

/-- Whether this stimulus would get past the one-shot guard into the body
of one of the three guarded close paths (`ws_closed_early`,
`ws_closed_late`, `ws_error`). A close routed to the `stop_channel`
cleanup is not one of the guarded paths. -/
def closeBodyRuns (s : State) : Stim → Bool
  | Stim.wsClose _ =>
      match s.ws with
      | none => false
      | some w =>
          !s.already_called_onclose && decide (w.onclose ≠ OncloseHandler.cleanup)
  | Stim.wsError =>
      match s.ws with
      | none => false
      | some _ => !s.already_called_onclose
  | _ => false

/-- Count, along a run, how many stimuli reach a guarded close body. -/
def countCloseBodies (s : State) : List Stim → Nat
  | [] => 0
  | st :: rest =>
      (if closeBodyRuns s st then 1 else 0) + countCloseBodies (stepStim s st).1 rest

/-- A demonstration instance. -/
def demo : State := init "ws://example.com" "sess"

/-- A demonstration instance whose transport is still CONNECTING. -/
def connectingState : State :=
  { demo with ws := some { readyState := ReadyState.CONNECTING
                           onclose := OncloseHandler.early } }

/-- A demonstration instance whose transport is OPEN. -/
def openState : State :=
  { demo with ws := some { readyState := ReadyState.OPEN
                           onclose := OncloseHandler.early } }

/-- A demonstration instance whose transport is already CLOSED. -/
def closedState : State :=
  { demo with ws := some { readyState := ReadyState.CLOSED
                           onclose := OncloseHandler.late } }

/-- C4 scenario: `start_channel`, then the transport opens, then an
unclean close arrives before the 1 s switch timer fires (the early
handler is still installed). -/
def c4Acts : List Act :=
  let p1 := start_channel demo
  let p2 := handle_open p1.1
  let p3 := handle_close p2.1 false
  p1.2 ++ p2.2 ++ p3.2

/-- One failed reconnect cycle: the backoff timer fires, the fresh
transport closes uncleanly. -/
def failCycleStims : List Stim := [Stim.reconnectTimer, Stim.wsClose false]

/-- C6 scenario stimuli: initial unclean close, then seven timer-fire /
fail cycles, with no successful open anywhere. -/
def c6Stims : List Stim :=
  Stim.wsClose false :: (List.replicate 7 failCycleStims).flatten

/-- All actions emitted along the C6 scenario, starting from a fresh
instance's first `start_channel`. -/
def c6Acts : List Act :=
  let p1 := start_channel demo
  let p2 := runStims p1.1 c6Stims
  p1.2 ++ p2.2

/-- A decoded demonstration message carrying an `exec` field. -/
def demoMsg : Msg := { exec := some "payload" }

/-- A frame that decodes cleanly and dispatches without error. -/
def goodFrame : Frame :=
  { arrival := 0, decodeLatency := 5, decoded := some demoMsg, dispatchThrows := false }

/-- A frame whose decode rejects. -/
def badFrame : Frame :=
  { arrival := 1, decodeLatency := 2, decoded := none, dispatchThrows := false }

/-- Three healthy frames with differing arrival times and latencies. -/
def demoFrames : List Frame :=
  [ goodFrame,
    { arrival := 1, decodeLatency := 0, decoded := some { exec := none }
      dispatchThrows := false },
    { arrival := 2, decodeLatency := 3, decoded := some demoMsg
      dispatchThrows := false } ]

/-- A healthy frame, then a failing decode, then another healthy frame. -/
def demoFramesWithError : List Frame := [goodFrame, badFrame, goodFrame]

/-! ## Theorems -/

/-- The chain gives every queued frame a segment. -/
theorem runChain_length (fs : List Frame) (t i : Nat) :
    (runChain t i fs).length = fs.length := by
  induction fs generalizing t i with
  | nil => rfl
  | cons f fs ih => simp [runChain, ih]

/-- Segment indices are consecutive from `i`: processing order is arrival
order. -/
theorem runChain_map_idx (fs : List Frame) (t i : Nat) :
    (runChain t i fs).map ChainStep.idx = List.range' i fs.length := by
  induction fs generalizing t i with
  | nil => rfl
  | cons f fs ih => simp [runChain, ih, List.range'_succ]

/-- Each segment's action is determined by its own frame, positionally. -/
theorem runChain_map_act (fs : List Frame) (t i : Nat) :
    (runChain t i fs).map ChainStep.act = fs.map frameAct := by
  induction fs generalizing t i with
  | nil => rfl
  | cons f fs ih => simp [runChain, ih]

/-- The first segment of a chain, if any, starts no earlier than the time
the previous segment settled. -/
theorem runChain_head_start (fs : List Frame) (t i : Nat) :
    ∀ st ∈ (runChain t i fs).head?, t ≤ st.startT := by
  cases fs with
  | nil => intro st hst; simp [runChain] at hst
  | cons f fs =>
      intro st hst
      simp [runChain] at hst
      subst hst
      exact le_max_left _ _

/-- Segments of the chain do not overlap: each begins only once the
previous one has settled. -/
theorem runChain_sequential (fs : List Frame) (t i : Nat) :
    List.Chain' (fun a b => a.finishT ≤ b.startT) (runChain t i fs) := by
  induction fs generalizing t i with
  | nil => simp [runChain]
  | cons f fs ih =>
      rw [runChain, List.chain'_cons']
      exact ⟨runChain_head_start fs _ _, ih _ _⟩

/-- Below the ceiling, `_schedule_reconnect` arms the backoff timer for
`nextDelay attempt` seconds and does nothing else. -/
theorem schedule_reconnect_retry (s : State)
    (hlim : s.reconnect_limit = reconnect_limit)
    (h : shouldRetry s.reconnect_attempt = true) :
    schedule_reconnect s = (s, [Act.scheduleReconnect (nextDelay s.reconnect_attempt)]) := by
  have hlt : s.reconnect_attempt < s.reconnect_limit := by
    rw [hlim]
    exact of_decide_eq_true h
  simp [schedule_reconnect, hlt, nextDelay]

/-- At the ceiling, `_schedule_reconnect` fires the terminal
`remote_connection_dead` notification carrying the attempt count and arms
no timer. -/
theorem schedule_reconnect_dead (s : State)
    (hlim : s.reconnect_limit = reconnect_limit)
    (h : shouldRetry s.reconnect_attempt = false) :
    schedule_reconnect s = (s, [Act.remote_connection_dead s.reconnect_attempt]) := by
  have hge : ¬ s.reconnect_attempt < s.reconnect_limit := by
    rw [hlim]
    simpa [shouldRetry] using h
  simp [schedule_reconnect, hge]

/-- C1: for every attempt count `a` with `0 ≤ a ≤ 6`, the backoff delay
for attempt `a` is `2^a` seconds and retrying is allowed
(`shouldRetry a = true`); for `a = 7`, the fixed ceiling, retrying is not
allowed. These policy values are exactly what `_schedule_reconnect` uses
on any instance whose `reconnect_limit` is the constructor's 7. -/
theorem backoff_policy :
    (∀ a : Nat, a ≤ 6 → nextDelay a = 2 ^ a ∧ shouldRetry a = true)
    ∧ shouldRetry 7 = false
    ∧ (∀ s : State, s.reconnect_limit = reconnect_limit →
        shouldRetry s.reconnect_attempt = true →
        schedule_reconnect s = (s, [Act.scheduleReconnect (nextDelay s.reconnect_attempt)]))
    ∧ (∀ s : State, s.reconnect_limit = reconnect_limit →
        shouldRetry s.reconnect_attempt = false →
        schedule_reconnect s = (s, [Act.remote_connection_dead s.reconnect_attempt])) := by
  refine ⟨?_, by decide, schedule_reconnect_retry, schedule_reconnect_dead⟩
  intro a ha
  refine ⟨rfl, ?_⟩
  simp only [shouldRetry, reconnect_limit, decide_eq_true_eq]
  omega

/-- Witness for C1 at attempt 3 and at a fresh instance (attempt 0,
limit 7). -/
theorem backoff_policy_witness :
    (nextDelay 3 = 2 ^ 3 ∧ shouldRetry 3 = true)
    ∧ schedule_reconnect demo = (demo, [Act.scheduleReconnect (nextDelay demo.reconnect_attempt)]) :=
  ⟨backoff_policy.1 3 (by decide), backoff_policy.2.2.1 demo rfl (by decide)⟩

/-- C2: over any sequence of inbound frames and any assignment of decode
latencies and arrival times, the promise chain processes frames strictly
sequentially — segment `k+1` begins only after segment `k` has settled —
and the segment order is the enqueue order; when every frame decodes and
dispatches cleanly, every segment is a dispatch, so dispatch order equals
enqueue order for all `N` frames. -/
theorem chain_dispatch_order :
    ∀ (fs : List Frame) (t i : Nat),
      ((runChain t i fs).map ChainStep.idx = List.range' i fs.length)
      ∧ List.Chain' (fun a b => a.finishT ≤ b.startT) (runChain t i fs)
      ∧ ((∀ f ∈ fs, f.decoded.isSome = true ∧ f.dispatchThrows = false) →
          ∀ st ∈ runChain t i fs, isDispatched st.act = true) := by
  intro fs t i
  refine ⟨runChain_map_idx fs t i, runChain_sequential fs t i, ?_⟩
  intro h st hst
  have hmem : st.act ∈ (runChain t i fs).map ChainStep.act :=
    List.mem_map_of_mem _ hst
  rw [runChain_map_act] at hmem
  obtain ⟨f, hf, hact⟩ := List.mem_map.mp hmem
  obtain ⟨h1, h2⟩ := h f hf
  obtain ⟨m, hm⟩ := Option.isSome_iff_exists.mp h1
  rw [← hact]
  simp [frameAct, hm, h2, isDispatched]

/-- Witness for C2 on three concrete healthy frames. -/
theorem chain_dispatch_order_witness :
    ((runChain 0 0 demoFrames).map ChainStep.idx = List.range' 0 3)
    ∧ List.Chain' (fun a b => a.finishT ≤ b.startT) (runChain 0 0 demoFrames)
    ∧ (∀ st ∈ runChain 0 0 demoFrames, isDispatched st.act = true) := by
  obtain ⟨h1, h2, h3⟩ := chain_dispatch_order demoFrames 0 0
  exact ⟨by simpa [demoFrames] using h1, h2, h3 (by decide)⟩

/-- C3: a decode rejection or dispatch throw on frame `k` is caught and
reported (`errorReported`), the chain is not aborted — every frame,
including each later one, still gets its segment, positionally and in
enqueue order, and healthy frames still dispatch — and handing a frame to
`_handle_ws_message` never touches the websocket handle nor emits any
close/lifecycle action. -/
theorem chain_error_isolation :
    ∀ (fs : List Frame) (t i : Nat),
      ((runChain t i fs).map ChainStep.act = fs.map frameAct)
      ∧ (runChain t i fs).length = fs.length
      ∧ ((runChain t i fs).map ChainStep.idx = List.range' i fs.length)
      ∧ (∀ f : Frame, f.decoded = none ∨ f.dispatchThrows = true →
          frameAct f = ChainAct.errorReported)
      ∧ (∀ (f : Frame) (m : Msg), f.decoded = some m → f.dispatchThrows = false →
          frameAct f = ChainAct.dispatched m.exec)
      ∧ (∀ (s : State) (f : Frame),
          (handle_ws_message s f).1.ws = s.ws ∧ (handle_ws_message s f).2 = []) := by
  intro fs t i
  refine ⟨runChain_map_act fs t i, runChain_length fs t i, runChain_map_idx fs t i,
    ?_, ?_, ?_⟩
  · intro f hf
    rcases hf with h | h
    · simp [frameAct, h]
    · cases hd : f.decoded with
      | none => simp [frameAct, hd]
      | some m => simp [frameAct, hd, h]
  · intro f m hm hth
    simp [frameAct, hm, hth]
  · intro s f
    exact ⟨rfl, rfl⟩

/-- Witness for C3: a failing decode sandwiched between two healthy
frames is reported while both neighbours still dispatch, and enqueuing the
bad frame leaves the websocket untouched. -/
theorem chain_error_isolation_witness :
    ((runChain 0 0 demoFramesWithError).map ChainStep.act =
        demoFramesWithError.map frameAct)
    ∧ frameAct badFrame = ChainAct.errorReported
    ∧ frameAct goodFrame = ChainAct.dispatched (some "payload")
    ∧ (handle_ws_message demo badFrame).1.ws = demo.ws := by
  obtain ⟨h1, _, _, h4, h5, h6⟩ := chain_error_isolation demoFramesWithError 0 0
  refine ⟨h1, h4 badFrame (Or.inl rfl), ?_, (h6 demo badFrame).1⟩
  have := h5 goodFrame demoMsg rfl rfl
  simpa [demoMsg] using this

/-- The cleanup `close_cleanup` only ever touches the `ws` field. -/
theorem close_cleanup_guard (s : State) :
    (close_cleanup s).already_called_onclose = s.already_called_onclose := by
  unfold close_cleanup
  cases hw : s.ws with
  | none => rfl
  | some w =>
      dsimp only
      split <;> rfl

/-- Operation `stop_channel` only ever touches the `ws` field: the one-shot guard,
the attempt counter and the limit survive it. -/
theorem stop_channel_fields (s : State) :
    (stop_channel s).already_called_onclose = s.already_called_onclose
    ∧ (stop_channel s).reconnect_attempt = s.reconnect_attempt
    ∧ (stop_channel s).reconnect_limit = s.reconnect_limit := by
  unfold stop_channel
  cases hw : s.ws with
  | none => exact ⟨rfl, rfl, rfl⟩
  | some w =>
      dsimp only
      split
      · exact ⟨rfl, rfl, rfl⟩
      · unfold close_cleanup
        rw [hw]
        dsimp only
        split <;> exact ⟨rfl, rfl, rfl⟩

/-- Operation `_schedule_reconnect` does not mutate the state. -/
theorem schedule_reconnect_state (s : State) : (schedule_reconnect s).1 = s := by
  unfold schedule_reconnect
  split <;> rfl

/-- The state left by `_ws_closed` is the stopped channel. -/
theorem ws_closed_state (s : State) (e : Bool) :
    (ws_closed s e).1 = stop_channel s := by
  unfold ws_closed
  exact schedule_reconnect_state _

/-- A set one-shot guard short-circuits the shared early/late close body. -/
theorem onclose_guarded_of_guard (s : State) (c : Bool)
    (h : s.already_called_onclose = true) :
    onclose_guarded s c = (s, []) := by
  unfold onclose_guarded
  simp [h]

/-- Whatever the guard's prior value, it is set after the shared
early/late close body has been consulted. -/
theorem onclose_guarded_guard (s : State) (c : Bool) :
    (onclose_guarded s c).1.already_called_onclose = true := by
  unfold onclose_guarded
  by_cases h : s.already_called_onclose = true
  · simp [h]
  · have h' : s.already_called_onclose = false := by simpa using h
    rw [if_neg (by simp [h'])]
    dsimp only
    split
    · rfl
    · rw [ws_closed_state]
      exact (stop_channel_fields _).1

/-- Close and error stimuli never clear the one-shot guard. -/
theorem guard_monotone (s : State) (st : Stim)
    (hcs : isCloseStim st = true)
    (h : s.already_called_onclose = true) :
    (stepStim s st).1.already_called_onclose = true := by
  cases st with
  | wsClose c =>
      unfold stepStim handle_close
      cases hw : s.ws with
      | none => exact h
      | some w =>
          dsimp only
          cases hoc : w.onclose
          · exact onclose_guarded_guard _ _
          · exact onclose_guarded_guard _ _
          · dsimp only
            rw [close_cleanup_guard]
            exact h
  | wsError =>
      unfold stepStim handle_error
      cases hw : s.ws with
      | none => exact h
      | some w =>
          dsimp only
          rw [if_pos h]
          exact h
  | wsOpen => simp [isCloseStim] at hcs
  | reconnectTimer => simp [isCloseStim] at hcs
  | switchTimer => simp [isCloseStim] at hcs
  | message f => simp [isCloseStim] at hcs

/-- A set one-shot guard keeps every guarded close body from running. -/
theorem closeBodyRuns_of_guard (s : State) (st : Stim)
    (h : s.already_called_onclose = true) :
    closeBodyRuns s st = false := by
  cases st with
  | wsClose c =>
      unfold closeBodyRuns
      cases hw : s.ws with
      | none => rfl
      | some w => simp [h]
  | wsError =>
      unfold closeBodyRuns
      cases hw : s.ws with
      | none => rfl
      | some w => simp [h]
  | wsOpen => rfl
  | reconnectTimer => rfl
  | switchTimer => rfl
  | message f => rfl

/-- Running a guarded close body sets the one-shot guard. -/
theorem guard_after_body (s : State) (st : Stim)
    (h : closeBodyRuns s st = true) :
    (stepStim s st).1.already_called_onclose = true := by
  cases st with
  | wsClose c =>
      unfold closeBodyRuns at h
      cases hw : s.ws with
      | none => rw [hw] at h; exact absurd h (by simp)
      | some w =>
          rw [hw] at h
          simp only [Bool.and_eq_true, Bool.not_eq_true', decide_eq_true_eq] at h
          obtain ⟨hg, hcl⟩ := h
          unfold stepStim handle_close
          rw [hw]
          dsimp only
          cases hoc : w.onclose with
          | early => exact onclose_guarded_guard _ _
          | late => exact onclose_guarded_guard _ _
          | cleanup => exact absurd hoc hcl
  | wsError =>
      unfold closeBodyRuns at h
      cases hw : s.ws with
      | none => rw [hw] at h; exact absurd h (by simp)
      | some w =>
          rw [hw] at h
          simp only [Bool.not_eq_true'] at h
          unfold stepStim handle_error
          rw [hw]
          dsimp only
          rw [if_neg (by simp [h])]
          rw [ws_closed_state]
          exact (stop_channel_fields _).1
  | wsOpen => exact absurd h (by simp [closeBodyRuns])
  | reconnectTimer => exact absurd h (by simp [closeBodyRuns])
  | switchTimer => exact absurd h (by simp [closeBodyRuns])
  | message f => exact absurd h (by simp [closeBodyRuns])

/-- Once the guard is set, no guarded close body runs along any sequence
of close/error stimuli. -/
theorem countCloseBodies_of_guard (s : State) (l : List Stim)
    (hl : ∀ st ∈ l, isCloseStim st = true)
    (h : s.already_called_onclose = true) :
    countCloseBodies s l = 0 := by
  induction l generalizing s with
  | nil => rfl
  | cons st rest ih =>
      have h1 := closeBodyRuns_of_guard s st h
      have h2 := guard_monotone s st (hl st (by simp)) h
      simp only [countCloseBodies, h1, if_neg (by simp : ¬ (false = true)), Nat.zero_add]
      exact ih _ (fun x hx => hl x (by simp [hx])) h2

/-- At most one guarded close body runs along any sequence of close/error
stimuli. -/
theorem countCloseBodies_le_one (s : State) (l : List Stim)
    (hl : ∀ st ∈ l, isCloseStim st = true) :
    countCloseBodies s l ≤ 1 := by
  induction l generalizing s with
  | nil => simp [countCloseBodies]
  | cons st rest ih =>
      by_cases hb : closeBodyRuns s st = true
      · have hg := guard_after_body s st hb
        have h0 := countCloseBodies_of_guard (stepStim s st).1 rest
          (fun x hx => hl x (by simp [hx])) hg
        simp [countCloseBodies, hb, h0]
      · have hb' : closeBodyRuns s st = false := by simpa using hb
        simp only [countCloseBodies, hb', if_neg (by simp : ¬ (false = true)),
          Nat.zero_add]
        exact ih _ (fun x hx => hl x (by simp [hx]))

/-- C4: for every transport instance, at most one of the three guarded
close-handling paths (`ws_closed_early`, `ws_closed_late`, `ws_error`)
ever runs its body, whatever sequence of close/error events the transport
delivers; and in the concrete scenario open → unclean close before the
1 s grace window, exactly one `remote_disconnected` notification fires
and exactly one reconnect is scheduled, at delay `2^0 = 1` second. -/
theorem one_shot_close_guard :
    (∀ (s : State) (l : List Stim), (∀ st ∈ l, isCloseStim st = true) →
        countCloseBodies s l ≤ 1)
    ∧ c4Acts.filter isDisconnectedAct = [Act.remote_disconnected]
    ∧ c4Acts.filter isScheduleAct = [Act.scheduleReconnect (nextDelay 0)] :=
  ⟨fun s l hl => countCloseBodies_le_one s l hl, by decide, by decide⟩

/-- Witness for C4: a close, an error and a second close right after an
open transport still reach at most one guarded body. -/
theorem one_shot_close_guard_witness :
    countCloseBodies openState [Stim.wsClose false, Stim.wsError, Stim.wsClose true] ≤ 1 :=
  one_shot_close_guard.1 openState
    [Stim.wsClose false, Stim.wsError, Stim.wsClose true] (by decide)

/-- Operation `start_channel` always leaves a fresh CONNECTING transport with the
early close handler, a fresh one-shot guard, an untouched attempt
counter, and arms only the 1 s handler-switch timer. -/
theorem start_channel_state (s : State) :
    (start_channel s).1.ws =
      some { readyState := ReadyState.CONNECTING, onclose := OncloseHandler.early }
    ∧ (start_channel s).1.already_called_onclose = false
    ∧ (start_channel s).1.reconnect_attempt = s.reconnect_attempt
    ∧ (start_channel s).2 = [Act.scheduleHandlerSwitch] :=
  ⟨rfl, rfl, (stop_channel_fields s).2.1, rfl⟩

/-- C5: if a connection loss is handled while the attempt counter is
below the ceiling (`shouldRetry` holds), `_schedule_reconnect` arms a
timer for `2^attempt` (= `nextDelay attempt`) seconds; when that timer
fires, `reconnect` increments the attempt counter by one and invokes
`start_channel` again, yielding a fresh CONNECTING transport with a fresh
one-shot guard. -/
theorem reconnect_timer_cycle :
    ∀ s : State, s.reconnect_limit = reconnect_limit →
      shouldRetry s.reconnect_attempt = true →
      schedule_reconnect s = (s, [Act.scheduleReconnect (nextDelay s.reconnect_attempt)])
      ∧ (reconnect s).1.reconnect_attempt = s.reconnect_attempt + 1
      ∧ (reconnect s).1.ws =
          some { readyState := ReadyState.CONNECTING, onclose := OncloseHandler.early }
      ∧ (reconnect s).1.already_called_onclose = false
      ∧ (reconnect s).2 = [Act.remote_reconnecting, Act.scheduleHandlerSwitch] := by
  intro s hlim h
  have hs := start_channel_state { s with reconnect_attempt := s.reconnect_attempt + 1 }
  refine ⟨schedule_reconnect_retry s hlim h, ?_, ?_, ?_, ?_⟩
  · exact hs.2.2.1
  · exact hs.1
  · exact hs.2.1
  · show Act.remote_reconnecting :: (start_channel _).2 = _
    rw [hs.2.2.2]

/-- Witness for C5 at a fresh instance (attempt 0, limit 7). -/
theorem reconnect_timer_cycle_witness :
    schedule_reconnect demo = (demo, [Act.scheduleReconnect (nextDelay demo.reconnect_attempt)])
    ∧ (reconnect demo).1.reconnect_attempt = demo.reconnect_attempt + 1 := by
  obtain ⟨h1, h2, -⟩ := reconnect_timer_cycle demo rfl (by decide)
  exact ⟨h1, h2⟩

/-- C6: starting from a fresh instance, after the initial connection loss
and seven consecutive failed reconnect attempts with no intervening
successful connect, exactly one terminal `remote_connection_dead`
notification fires, carrying `reconnect_attempt = 7`, and exactly seven
reconnect timers were ever armed (delays 1,2,4,...,64 s) — no 8th attempt
is scheduled. -/
theorem reconnect_exhaustion :
    c6Acts.filter isDeadAct = [Act.remote_connection_dead 7]
    ∧ c6Acts.filter isScheduleAct =
        [Act.scheduleReconnect 1, Act.scheduleReconnect 2, Act.scheduleReconnect 4,
         Act.scheduleReconnect 8, Act.scheduleReconnect 16, Act.scheduleReconnect 32,
         Act.scheduleReconnect 64]
    ∧ (runStims (start_channel demo).1 c6Stims).1.reconnect_attempt = 7 :=
  ⟨by decide, by decide, by decide⟩

/-- Calling `stop_channel` with no transport is the identity. -/
theorem stop_channel_none (s : State) (h : s.ws = none) : stop_channel s = s := by
  simp [stop_channel, h]

/-- Calling `stop_channel` on an OPEN transport installs the cleanup handler and
initiates the close (CLOSING); the handle is not cleared yet. -/
theorem stop_channel_open (s : State) (w : WS) (h : s.ws = some w)
    (ho : w.readyState = ReadyState.OPEN) :
    stop_channel s =
      { s with ws := some { readyState := ReadyState.CLOSING
                            onclose := OncloseHandler.cleanup } } := by
  simp [stop_channel, h, ho]

/-- Calling `stop_channel` on a CLOSED transport clears the handle. -/
theorem stop_channel_closed (s : State) (w : WS) (h : s.ws = some w)
    (hc : w.readyState = ReadyState.CLOSED) :
    stop_channel s = { s with ws := none } := by
  simp [stop_channel, close_cleanup, h, hc]

/-- Calling `stop_channel` on a CONNECTING or CLOSING transport does nothing: the
cleanup only clears a CLOSED handle. -/
theorem stop_channel_other (s : State) (w : WS) (h : s.ws = some w)
    (ho : w.readyState ≠ ReadyState.OPEN) (hc : w.readyState ≠ ReadyState.CLOSED) :
    stop_channel s = s := by
  simp [stop_channel, close_cleanup, h, ho, hc]

/-- A second immediate `stop_channel` has no further effect. -/
theorem stop_channel_idem (s : State) :
    stop_channel (stop_channel s) = stop_channel s := by
  cases hw : s.ws with
  | none => simp only [stop_channel_none s hw]
  | some w =>
      obtain ⟨r, oc⟩ := w
      cases r with
      | CONNECTING =>
          have h := stop_channel_other s ⟨ReadyState.CONNECTING, oc⟩ hw
            (by simp) (by simp)
          simp only [h]
      | OPEN =>
          have h := stop_channel_open s ⟨ReadyState.OPEN, oc⟩ hw rfl
          rw [h, stop_channel_other _ _ rfl (by simp) (by simp)]
      | CLOSING =>
          have h := stop_channel_other s ⟨ReadyState.CLOSING, oc⟩ hw
            (by simp) (by simp)
          simp only [h]
      | CLOSED =>
          have h := stop_channel_closed s ⟨ReadyState.CLOSED, oc⟩ hw rfl
          rw [h, stop_channel_none _ rfl]

/-- After any `stop_channel` call, `is_connected` is false. -/
theorem stop_channel_not_connected (s : State) :
    is_connected (stop_channel s) = false := by
  cases hw : s.ws with
  | none => rw [stop_channel_none s hw]; simp [is_connected, hw]
  | some w =>
      obtain ⟨r, oc⟩ := w
      cases r with
      | CONNECTING =>
          rw [stop_channel_other s ⟨ReadyState.CONNECTING, oc⟩ hw (by simp) (by simp)]
          simp [is_connected, hw]
      | OPEN =>
          rw [stop_channel_open s ⟨ReadyState.OPEN, oc⟩ hw rfl]
          rfl
      | CLOSING =>
          rw [stop_channel_other s ⟨ReadyState.CLOSING, oc⟩ hw (by simp) (by simp)]
          simp [is_connected, hw]
      | CLOSED =>
          rw [stop_channel_closed s ⟨ReadyState.CLOSED, oc⟩ hw rfl]
          rfl

/-- C7 counterexample: with a transport handle present but still
CONNECTING, `stop_channel` leaves the handle in place, so
`is_fully_disconnected` is false immediately after the call — refuting
"after any call to stopChannel isFullyDisconnected() returns true ...
regardless of the transport's state". -/
theorem stop_channel_counterexample :
    is_fully_disconnected (stop_channel connectingState) = false := by decide

/-- C7 amended: `stop_channel` is idempotent — a second immediate call has
no further effect — and calling it with no transport handle is a no-op;
after any call `is_connected` is false; the handle is cleared at once
(`is_fully_disconnected` true) when the transport was absent or already
CLOSED, while for a transport still connecting or open the handle is
cleared only once the underlying close completes. -/
theorem stop_channel_spec :
    (∀ s : State, stop_channel (stop_channel s) = stop_channel s)
    ∧ (∀ s : State, s.ws = none → stop_channel s = s)
    ∧ (∀ s : State, is_connected (stop_channel s) = false)
    ∧ (∀ (s : State) (w : WS), s.ws = some w → w.readyState = ReadyState.CLOSED →
        is_fully_disconnected (stop_channel s) = true)
    ∧ (∀ s : State, s.ws = none → is_fully_disconnected (stop_channel s) = true) := by
  refine ⟨stop_channel_idem, stop_channel_none, stop_channel_not_connected, ?_, ?_⟩
  · intro s w hw hc
    rw [stop_channel_closed s w hw hc]
    rfl
  · intro s h
    rw [stop_channel_none s h]
    simp [is_fully_disconnected, h]

/-- Witness for C7 (amended) on concrete open, absent and closed
transports. -/
theorem stop_channel_spec_witness :
    stop_channel (stop_channel openState) = stop_channel openState
    ∧ stop_channel demo = demo
    ∧ is_connected (stop_channel openState) = false
    ∧ is_fully_disconnected (stop_channel closedState) = true :=
  ⟨stop_channel_spec.1 openState, stop_channel_spec.2.1 demo rfl,
    stop_channel_spec.2.2.1 openState,
    stop_channel_spec.2.2.2.1 closedState
      { readyState := ReadyState.CLOSED, onclose := OncloseHandler.late } rfl rfl⟩

/-- C8: `send_input_reply` called while not connected throws
"remote is not connected" immediately — nothing is transmitted and no
state (in particular the reconnect counter) is mutated, since the error
path returns before any effect; while connected it triggers the
`input_reply` notification with the content, transmits the serialized
`"input_reply"` envelope tagged channel `"stdin"`, consumes exactly one
fresh id, and returns that envelope's freshly generated `msg_id`. -/
theorem send_input_reply_spec :
    (∀ (s : State) (input : String), is_connected s = false →
        send_input_reply s input = Except.error "remote is not connected")
    ∧ (∀ (s : State) (input : String), is_connected s = true →
        send_input_reply s input =
          Except.ok ({ s with uuid_counter := s.uuid_counter + 1 },
            [Act.input_reply input,
             Act.wsSend
               { header := { msg_id := s.uuid_counter
                             username := s.username
                             session := s.session_id
                             msg_type := "input_reply"
                             version := "5.0" }
                 metadata := []
                 content := input
                 buffers := []
                 parent_header := []
                 channel := some "stdin" }],
            s.uuid_counter)) := by
  constructor
  · intro s input h
    simp [send_input_reply, h]
  · intro s input h
    simp [send_input_reply, h, get_msg, uuid]

/-- Witness for C8: a fresh (disconnected) instance throws; an open
instance transmits and returns the fresh id 0. -/
theorem send_input_reply_spec_witness :
    send_input_reply demo "x" = Except.error "remote is not connected"
    ∧ send_input_reply openState "42" =
        Except.ok ({ openState with uuid_counter := openState.uuid_counter + 1 },
          [Act.input_reply "42",
           Act.wsSend
             { header := { msg_id := openState.uuid_counter
                           username := openState.username
                           session := openState.session_id
                           msg_type := "input_reply"
                           version := "5.0" }
               metadata := []
               content := "42"
               buffers := []
               parent_header := []
               channel := some "stdin" }],
          openState.uuid_counter) :=
  ⟨send_input_reply_spec.1 demo "x" rfl, send_input_reply_spec.2 openState "42" rfl⟩

/-- C9: `_get_msg` builds, with no effect on any manager state, an
envelope whose header holds the freshly generated id, the session's
username and session id, the given type, and protocol version exactly
"5.0"; metadata defaults to `{}` and buffers to `[]` when omitted;
`parent_header` is empty; the content is carried unchanged; and two
envelopes built back-to-back (the second from the advanced generator)
never share a `msg_id`. -/
theorem get_msg_spec :
    ∀ (α : Type) (username session_id : String) (counter : Nat) (msg_type : String)
      (content : α) (metadata : Option JsonObj) (buffers : Option (List Nat)),
      (get_msg username session_id counter msg_type content metadata buffers).1.header =
        { msg_id := counter, username := username, session := session_id,
          msg_type := msg_type, version := "5.0" }
      ∧ (get_msg username session_id counter msg_type content metadata buffers).1.metadata
          = metadata.getD []
      ∧ (get_msg username session_id counter msg_type content metadata buffers).1.buffers
          = buffers.getD []
      ∧ (get_msg username session_id counter msg_type content metadata buffers).1.content
          = content
      ∧ (get_msg username session_id counter msg_type content metadata buffers).1.parent_header
          = []
      ∧ (metadata = none →
          (get_msg username session_id counter msg_type content metadata buffers).1.metadata = [])
      ∧ (buffers = none →
          (get_msg username session_id counter msg_type content metadata buffers).1.buffers = [])
      ∧ (get_msg username session_id counter msg_type content metadata buffers).2 = counter + 1
      ∧ (get_msg username session_id
            (get_msg username session_id counter msg_type content metadata buffers).2
            msg_type content metadata buffers).1.header.msg_id ≠
          (get_msg username session_id counter msg_type content metadata buffers).1.header.msg_id := by
  intro α username session_id counter msg_type content metadata buffers
  refine ⟨rfl, rfl, rfl, rfl, rfl, ?_, ?_, rfl, ?_⟩
  · intro h
    rw [h]
    rfl
  · intro h
    rw [h]
    rfl
  · exact Nat.succ_ne_self counter

/-- Witness for C9 on concrete identity fields, with omitted metadata and
buffers, exercising the back-to-back distinctness. -/
theorem get_msg_spec_witness :
    (get_msg "username" "sess" 0 "input_reply" "v" none none).1.header =
      { msg_id := 0, username := "username", session := "sess",
        msg_type := "input_reply", version := "5.0" }
    ∧ (get_msg "username" "sess" 0 "input_reply" "v" none none).1.metadata = []
    ∧ (get_msg "username" "sess" 1 "input_reply" "v" none none).1.header.msg_id ≠
        (get_msg "username" "sess" 0 "input_reply" "v" none none).1.header.msg_id := by
  obtain ⟨h1, -, -, -, -, h6, -, h8, h9⟩ :=
    get_msg_spec String "username" "sess" 0 "input_reply" "v" none none
  rw [h8] at h9
  exact ⟨h1, h6 rfl, h9⟩

/-- C10: a clean close (`wasClean = true`) delivered to the early or late
handler consumes the one-shot guard but takes no action: no disconnected
notification, no reconnect scheduled, and the transport handle is kept
(only the socket's own readyState moves to CLOSED). Consequently any
later unclean close or error event on that same transport instance is
ignored entirely: it changes nothing and emits nothing. -/
theorem clean_close_consumes_guard :
    ∀ (s : State) (w : WS), s.ws = some w →
      w.onclose = OncloseHandler.early ∨ w.onclose = OncloseHandler.late →
      (s.already_called_onclose = false →
        handle_close s true =
          ({ s with ws := some { w with readyState := ReadyState.CLOSED }
                    already_called_onclose := true }, []))
      ∧ (s.already_called_onclose = true →
          (∀ c : Bool, handle_close s c =
              ({ s with ws := some { w with readyState := ReadyState.CLOSED } }, []))
          ∧ handle_error s = (s, []))
      ∧ (s.already_called_onclose = false →
          ∀ c : Bool,
            handle_close (handle_close s true).1 c = ((handle_close s true).1, [])
            ∧ handle_error (handle_close s true).1 = ((handle_close s true).1, [])) := by
  have hclean : ∀ (s' : State) (w' : WS), s'.ws = some w' →
      s'.already_called_onclose = false →
      (w'.onclose = OncloseHandler.early ∨ w'.onclose = OncloseHandler.late) →
      handle_close s' true =
        ({ s' with ws := some { w' with readyState := ReadyState.CLOSED }
                   already_called_onclose := true }, []) := by
    intro s' w' hw' hg' hol'
    unfold handle_close
    rw [hw']
    dsimp only
    rcases hol' with h | h <;> rw [h] <;> dsimp only <;>
      unfold onclose_guarded <;> rw [if_neg (by simp [hg'])] <;> rfl
  have hguarded : ∀ (s' : State) (w' : WS) (c : Bool), s'.ws = some w' →
      s'.already_called_onclose = true →
      (w'.onclose = OncloseHandler.early ∨ w'.onclose = OncloseHandler.late) →
      handle_close s' c =
        ({ s' with ws := some { w' with readyState := ReadyState.CLOSED } }, []) := by
    intro s' w' c hw' hg' hol'
    unfold handle_close
    rw [hw']
    dsimp only
    rcases hol' with h | h <;> rw [h] <;> dsimp only <;>
      exact onclose_guarded_of_guard _ c hg'
  have herr : ∀ (s' : State) (w' : WS), s'.ws = some w' →
      s'.already_called_onclose = true → handle_error s' = (s', []) := by
    intro s' w' hw' hg'
    unfold handle_error
    rw [hw']
    dsimp only
    rw [if_pos hg']
  intro s w hw hol
  refine ⟨fun hg => hclean s w hw hg hol, fun hg =>
    ⟨fun c => hguarded s w c hw hg hol, herr s w hw hg⟩, ?_⟩
  intro hg c
  rw [hclean s w hw hg hol]
  dsimp only
  have holc : ({ w with readyState := ReadyState.CLOSED } : WS).onclose =
      OncloseHandler.early ∨
      ({ w with readyState := ReadyState.CLOSED } : WS).onclose = OncloseHandler.late := by
    rcases hol with h | h
    · exact Or.inl h
    · exact Or.inr h
  constructor
  · exact hguarded _ { w with readyState := ReadyState.CLOSED } c rfl rfl holc
  · exact herr _ { w with readyState := ReadyState.CLOSED } rfl rfl

/-- Witness for C10: a clean close on an open transport consumes the
guard silently; the following unclean close is ignored entirely. -/
theorem clean_close_consumes_guard_witness :
    handle_close openState true =
      ({ openState with
          ws := some { readyState := ReadyState.CLOSED, onclose := OncloseHandler.early }
          already_called_onclose := true }, [])
    ∧ handle_close (handle_close openState true).1 false =
        ((handle_close openState true).1, []) := by
  obtain ⟨h1, -, h3⟩ := clean_close_consumes_guard openState
    { readyState := ReadyState.OPEN, onclose := OncloseHandler.early } rfl (Or.inl rfl)
  exact ⟨h1 rfl, (h3 rfl false).1⟩

end Remote

